import Mathlib

/-!
# Identity chaincode: ledger model and operations

A shallow embedding of `chaincode_identity.go`.  The chaincode talks to the
hosting ledger through a stub (`CreateTable`, `PutState`, `DelState`); the
stub is rendered here as explicit state passing over a `Ledger` value.  Every
chaincode entry point returns the ledger it leaves behind together with what
it handed back to the caller (`Res`): a normal return, a returned error, or a
run-time fault raised by an out-of-range slice index.
-/

namespace IdentityChainCode

/-! ## Data model -/

/-- Column types of the shim (`shim.ColumnDefinition_STRING` and friends). -/
inductive ColumnType
  | STRING
  | BOOL
  | BYTES
  deriving DecidableEq, Repr

/-- One column of a table schema (`shim.ColumnDefinition`). -/
structure ColumnDefinition where
  Name : String
  Typ : ColumnType
  Key : Bool
  deriving DecidableEq, Repr

/-- The ledger as seen through the stub: the declared tables and the raw
key-value world state. -/
structure Ledger where
  tables : List (String × List ColumnDefinition)
  state : List (String × String)
  deriving DecidableEq, Repr

/-- Failures reported by the stub itself. -/
inductive StubError
  | SchemaExists
  | InvalidSchema
  | StorageError
  deriving DecidableEq, Repr

/-- Errors returned by the chaincode, one constructor per error value the
source builds. -/
inductive Err
  /-- The `errors.New("Incorrect number of arguments. Expecting <n>")` value. -/
  | incorrectNumberOfArguments (expecting : Nat)
  /-- The `errors.New("Received unknown function invocation")` value. -/
  | unknownFunction
  /-- The `errors.New("Failed to delete policy")` value. -/
  | failedToDeletePolicy
  /-- The `fmt.Errorf("Failed creating <which> table, [%v]", err)` value. -/
  | failedCreatingTable (which : String) (cause : StubError)
  /-- A stub error handed back unchanged (`return nil, err`). -/
  | stub (cause : StubError)
  deriving DecidableEq, Repr

/-- Run-time faults of the Go program (not error returns). -/
inductive Fault
  | indexOutOfRange (index : Nat) (length : Nat)
  deriving DecidableEq, Repr

/-- What a chaincode entry point hands back: `([]byte, error)` or a fault. -/
inductive Res
  | ok (payload : Option String)
  | err (e : Err)
  | fault (f : Fault)
  deriving DecidableEq, Repr

/-- The empty ledger: no table declared, no row stored. -/
def Ledger.fresh : Ledger := ⟨[], []⟩

/-! ## The stub -/

/-- Modelled from the spec: the raw store read `GetState` of the hosting
platform (the shim is an external package); returns the value stored under
the key, or nothing when the key is absent (NotFound). -/
def GetState (stub : Ledger) (key : String) : Option String :=
  match stub.state.find? (fun kv => kv.1 = key) with
  | some kv => some kv.2
  | none => none

/-- Modelled from the spec: the raw store write `PutState` of the hosting
platform; writes or overwrites the value at the key.  The store is taken
fault-free, so the write never reports `StorageError`. -/
def PutState (stub : Ledger) (key : String) (value : String) : Except StubError Ledger :=
  .ok { stub with state := (key, value) :: stub.state.filter (fun kv => kv.1 ≠ key) }

/-- Modelled from the spec: the raw store delete `DelState` of the hosting
platform; removes the row, and deleting an absent row is a no-op success. -/
def DelState (stub : Ledger) (key : String) : Except StubError Ledger :=
  .ok { stub with state := stub.state.filter (fun kv => kv.1 ≠ key) }

/-- Whether a table of that name has been declared. -/
def tableExists (stub : Ledger) (name : String) : Bool :=
  stub.tables.any (fun t => t.1 = name)

/-- Modelled from the spec: `CreateTable(name, columns)` of the TableStore
contract (the shim is an external package); declares a schema, failing with
`SchemaExists` if the table already exists, or `InvalidSchema` if no column
is marked as part of the key. -/
def CreateTable (stub : Ledger) (name : String) (columns : List ColumnDefinition) :
    Except StubError Ledger :=
  if tableExists stub name then .error .SchemaExists
  else if columns.any (fun c => c.Key) then
    .ok { stub with tables := stub.tables ++ [(name, columns)] }
  else .error .InvalidSchema

/-! ## Chaincode entry points -/

/-- Column list passed to `CreateTable("IAManagerTable", ...)` in `Init`. -/
def iaManagerColumns : List ColumnDefinition :=
  [ ⟨"UserName", .STRING, true⟩,
    ⟨"IsAuthorized", .BOOL, true⟩,
    ⟨"PolicyName", .STRING, false⟩,
    ⟨"ResourceName", .STRING, false⟩,
    ⟨"ResourceIP", .STRING, false⟩,
    ⟨"ResourceURL", .STRING, false⟩,
    ⟨"UserType", .BYTES, false⟩,
    ⟨"UserRole", .BYTES, false⟩,
    ⟨"EnrollID", .STRING, false⟩ ]

/-- Column list passed to `CreateTable("AccessLogTable", ...)` in `Init`. -/
def accessLogColumns : List ColumnDefinition :=
  [ ⟨"ResourceName", .STRING, false⟩,
    ⟨"ResourceIP", .STRING, false⟩,
    ⟨"ResourceURL", .STRING, false⟩,
    ⟨"UserName", .STRING, false⟩,
    ⟨"EnrollID", .STRING, false⟩,
    ⟨"IsAuthorized", .BOOL, false⟩,
    ⟨"DateTime", .STRING, false⟩ ]

/-- The `Init` callback: expects no argument, then creates the two tables. -/
def Init (stub : Ledger) (_function : String) (args : List String) : Ledger × Res :=
  if args.length ≠ 0 then (stub, .err (.incorrectNumberOfArguments 0))
  else
    match CreateTable stub "IAManagerTable" iaManagerColumns with
    | .error err => (stub, .err (.failedCreatingTable "IAManager" err))
    | .ok stub1 =>
      match CreateTable stub1 "AccessLogTable" accessLogColumns with
      | .error errLog => (stub1, .err (.failedCreatingTable "AccessLog" errLog))
      | .ok stub2 => (stub2, .ok none)

/-- The row string `policycreate` and `policymodify` build from a policy
name, resource URL, user name and authorization flag. -/
def policyRow (name url user auth : String) : String :=
  "\x7b\"PolicyName\": \"" ++ name ++ "\", \"ResourceURL\": \"" ++ url ++
    "\", \"UserName\": " ++ user ++ ", \"IsAuthorized\": \"" ++ auth ++ "\"\x7d"

/-- The row string `resourcecreate` and `fetchlogs` build. -/
def resourceRow (name ip url : String) : String :=
  "\x7b\"ResourceName\": \"" ++ name ++ "\", \"ResourceIP\": \"" ++ ip ++
    "\", \"ResourceURL\": " ++ url ++ "\"\x7d"

/-- Create Policy: store the policy row under the policy name. -/
def policycreate (stub : Ledger) (args : List String) : Ledger × Res :=
  if args.length ≠ 4 then (stub, .err (.incorrectNumberOfArguments 1))
  else
    match args[0]?, args[1]?, args[2]?, args[3]? with
    | some a0, some a1, some a2, some a3 =>
      let str := policyRow a0 a1 a2 a3
      match PutState stub a0 str with
      | .error err => (stub, .err (.stub err))
      | .ok stub1 => (stub1, .ok none)
    | none, _, _, _ => (stub, .fault (.indexOutOfRange 0 args.length))
    | some _, none, _, _ => (stub, .fault (.indexOutOfRange 1 args.length))
    | some _, some _, none, _ => (stub, .fault (.indexOutOfRange 2 args.length))
    | some _, some _, some _, none => (stub, .fault (.indexOutOfRange 3 args.length))

/-- Delete Policy: remove the key from the chaincode state. -/
def policydelete (stub : Ledger) (args : List String) : Ledger × Res :=
  if args.length ≠ 1 then (stub, .err (.incorrectNumberOfArguments 1))
  else
    match args[0]? with
    | none => (stub, .fault (.indexOutOfRange 0 args.length))
    | some policyname =>
      match DelState stub policyname with
      | .error _ => (stub, .err .failedToDeletePolicy)
      | .ok stub1 => (stub1, .ok none)

/-- Modify Policy: remove the old key, then store the policy row under the
new policy name. -/
def policymodify (stub : Ledger) (args : List String) : Ledger × Res :=
  if args.length ≠ 5 then (stub, .err (.incorrectNumberOfArguments 1))
  else
    match args[1]? with
    | none => (stub, .fault (.indexOutOfRange 1 args.length))
    | some policyoldname =>
      match DelState stub policyoldname with
      | .error _ => (stub, .err .failedToDeletePolicy)
      | .ok stub1 =>
        match args[0]?, args[2]?, args[3]?, args[4]? with
        | some a0, some a2, some a3, some a4 =>
          let str := policyRow a0 a2 a3 a4
          match PutState stub1 a0 str with
          | .error err => (stub1, .err (.stub err))
          | .ok stub2 => (stub2, .ok none)
        | none, _, _, _ => (stub1, .fault (.indexOutOfRange 0 args.length))
        | some _, none, _, _ => (stub1, .fault (.indexOutOfRange 2 args.length))
        | some _, some _, none, _ => (stub1, .fault (.indexOutOfRange 3 args.length))
        | some _, some _, some _, none => (stub1, .fault (.indexOutOfRange 4 args.length))

/-- Create Resource: store the resource row under the resource name. -/
def resourcecreate (stub : Ledger) (args : List String) : Ledger × Res :=
  if args.length ≠ 3 then (stub, .err (.incorrectNumberOfArguments 3))
  else
    match args[0]?, args[1]?, args[2]? with
    | some a0, some a1, some a2 =>
      let str := resourceRow a0 a1 a2
      match PutState stub a0 str with
      | .error err => (stub, .err (.stub err))
      | .ok stub1 => (stub1, .ok none)
    | none, _, _ => (stub, .fault (.indexOutOfRange 0 args.length))
    | some _, none, _ => (stub, .fault (.indexOutOfRange 1 args.length))
    | some _, some _, none => (stub, .fault (.indexOutOfRange 2 args.length))

/-- Fetch Access Logs: after the two-argument check the body is that of
`resourcecreate`, reading `args[0]`, `args[1]` and `args[2]`. -/
def fetchlogs (stub : Ledger) (args : List String) : Ledger × Res :=
  if args.length ≠ 2 then (stub, .err (.incorrectNumberOfArguments 2))
  else
    match args[0]?, args[1]?, args[2]? with
    | some a0, some a1, some a2 =>
      let str := resourceRow a0 a1 a2
      match PutState stub a0 str with
      | .error err => (stub, .err (.stub err))
      | .ok stub1 => (stub1, .ok none)
    | none, _, _ => (stub, .fault (.indexOutOfRange 0 args.length))
    | some _, none, _ => (stub, .fault (.indexOutOfRange 1 args.length))
    | some _, some _, none => (stub, .fault (.indexOutOfRange 2 args.length))

/-- The `Invoke` callback: a chain of string comparisons on the function
name. -/
def Invoke (stub : Ledger) (function : String) (args : List String) : Ledger × Res :=
  if function = "Init" then Init stub "init" args
  else if function = "resourcecreate" then resourcecreate stub args
  else if function = "policycreate" then policycreate stub args
  else if function = "policydelete" then policydelete stub args
  else if function = "policymodify" then policymodify stub args
  else if function = "fetchlogs" then fetchlogs stub args
  else (stub, .err .unknownFunction)

/-- The `Query` callback: returns `nil, nil`. -/
def Query (stub : Ledger) (_function : String) (_args : List String) : Ledger × Res :=
  (stub, .ok none)

/-! ## Reading a stored row back as a record

The source has no reader (`Query` returns nothing), so the reading side is
written from the specification: a row is a flat JSON object whose field
names are the schema column names and whose field values are strings. -/

/-- A policy record: the four fields of a policy row. -/
structure Policy where
  PolicyName : String
  ResourceURL : String
  UserName : String
  IsAuthorized : String
  deriving DecidableEq, Repr

/-- A resource record: the three fields of a resource row. -/
structure Resource where
  ResourceName : String
  ResourceIP : String
  ResourceURL : String
  deriving DecidableEq, Repr

/-- The double-quote character. -/
def dq : Char := Char.ofNat 34

/-- The backslash character. -/
def bs : Char := Char.ofNat 92

/-- JSON insignificant whitespace. -/
def isWs (c : Char) : Bool :=
  c = ' ' || c = Char.ofNat 10 || c = Char.ofNat 13 || c = Char.ofNat 9

/-- Drop leading whitespace. -/
def skipWs : List Char → List Char
  | [] => []
  | c :: cs => if isWs c then skipWs cs else c :: cs

/-- The character a single-letter JSON escape stands for (the four-digit
hexadecimal form is not accepted). -/
def unescape (c : Char) : Option Char :=
  if c = dq then some dq
  else if c = bs then some bs
  else if c = '/' then some '/'
  else if c = 'n' then some (Char.ofNat 10)
  else if c = 'r' then some (Char.ofNat 13)
  else if c = 't' then some (Char.ofNat 9)
  else if c = 'b' then some (Char.ofNat 8)
  else if c = 'f' then some (Char.ofNat 12)
  else none

/-- Read the body of a JSON string literal, the opening quote already
consumed: the decoded characters and what follows the closing quote. -/
def readString : List Char → Option (List Char × List Char)
  | [] => none
  | c :: rest =>
    if c = dq then some ([], rest)
    else if c = bs then
      match rest with
      | [] => none
      | e :: rest1 =>
        match unescape e, readString rest1 with
        | some d, some (body, after) => some (d :: body, after)
        | _, _ => none
    else if c.toNat < 32 then none
    else
      match readString rest with
      | some (body, after) => some (c :: body, after)
      | none => none

/-- Read one `"name": "value"` member. -/
def readMember (cs : List Char) : Option ((String × String) × List Char) :=
  match skipWs cs with
  | [] => none
  | q :: r1 =>
    if q ≠ dq then none
    else
      match readString r1 with
      | none => none
      | some (name, r2) =>
        match skipWs r2 with
        | [] => none
        | colon :: r3 =>
          if colon ≠ ':' then none
          else
            match skipWs r3 with
            | [] => none
            | q2 :: r4 =>
              if q2 ≠ dq then none
              else
                match readString r4 with
                | none => none
                | some (value, r5) => some ((String.mk name, String.mk value), r5)

/-- Read the comma-separated members of an object up to and including the
closing brace; nothing but whitespace may follow. -/
def readMembers : Nat → List Char → Option (List (String × String))
  | 0, _ => none
  | fuel + 1, cs =>
    match readMember cs with
    | none => none
    | some (kv, r) =>
      match skipWs r with
      | [] => none
      | sep :: r1 =>
        if sep = ',' then
          match readMembers fuel r1 with
          | some kvs => some (kv :: kvs)
          | none => none
        else if sep = Char.ofNat 125 then
          (if skipWs r1 = [] then some [kv] else none)
        else none

/-- Modelled from the spec: the reader of a stored row (absent from the
source), a flat JSON object with string-valued fields; the members in
order, or nothing when the text is not such an object. -/
def decodeFlatObject (row : String) : Option (List (String × String)) :=
  match skipWs row.data with
  | [] => none
  | open1 :: r =>
    if open1 ≠ Char.ofNat 123 then none
    else
      match skipWs r with
      | [] => none
      | c :: r1 =>
        if c = Char.ofNat 125 then (if skipWs r1 = [] then some [] else none)
        else readMembers row.data.length (c :: r1)

/-- The value of a named field among decoded members. -/
def field (name : String) : List (String × String) → Option String
  | [] => none
  | kv :: kvs => if kv.1 = name then some kv.2 else field name kvs

/-- Modelled from the spec: a stored row read as a policy record (the
source has no reader), with the schema column names as field names. -/
def decodePolicy (row : String) : Option Policy :=
  match decodeFlatObject row with
  | none => none
  | some kvs =>
    match field "PolicyName" kvs, field "ResourceURL" kvs, field "UserName" kvs,
      field "IsAuthorized" kvs with
    | some p, some u, some n, some a => some ⟨p, u, n, a⟩
    | _, _, _, _ => none

/-- Modelled from the spec: a stored row read as a resource record (the
source has no reader), with the schema column names as field names. -/
def decodeResource (row : String) : Option Resource :=
  match decodeFlatObject row with
  | none => none
  | some kvs =>
    match field "ResourceName" kvs, field "ResourceIP" kvs, field "ResourceURL" kvs with
    | some r, some i, some u => some ⟨r, i, u⟩
    | _, _, _ => none

/-- Modelled from the spec: `GetRow` on the policy key space, the stored
row under the key read as a policy record; nothing when no row is stored
(NotFound) or the row is not a policy record. -/
def getPolicy (stub : Ledger) (key : String) : Option Policy :=
  match GetState stub key with
  | none => none
  | some row => decodePolicy row

/-- The arity the specification assigns to each route of `Invoke`. -/
def routeArity (function : String) : Option Nat :=
  if function = "policycreate" then some 4
  else if function = "policydelete" then some 1
  else if function = "policymodify" then some 5
  else if function = "resourcecreate" then some 3
  else if function = "fetchlogs" then some 2
  else none

/-- The five operation names the specification lists for `Invoke`. -/
def operationNames : List String :=
  ["resourcecreate", "policycreate", "policydelete", "policymodify", "fetchlogs"]

/-- Whether a string contains no double-quote character. -/
def quoteFree (s : String) : Bool :=
  s.data.all (fun c => c ≠ dq)

/-! ## Facts about the raw store -/

theorem find_filter_ne_self (l : List (String × String)) (k : String) :
    (l.filter (fun kv => kv.1 ≠ k)).find? (fun kv => kv.1 = k) = none := by
  induction l with
  | nil => rfl
  | cons x xs ih =>
    simp only [List.filter_cons]
    split
    · rename_i hk
      have hne : ¬ x.1 = k := by simpa using hk
      have hd : decide (x.1 = k) = false := by simp [hne]
      simp only [List.find?_cons, hd]
      exact ih
    · exact ih

theorem find_filter_ne_other (l : List (String × String)) (k k1 : String) (h : k1 ≠ k) :
    (l.filter (fun kv => kv.1 ≠ k)).find? (fun kv => kv.1 = k1) =
      l.find? (fun kv => kv.1 = k1) := by
  induction l with
  | nil => rfl
  | cons x xs ih =>
    simp only [List.filter_cons]
    split
    · by_cases hx1 : x.1 = k1
      · have hd : decide (x.1 = k1) = true := by simp [hx1]
        simp only [List.find?_cons, hd]
      · have hd : decide (x.1 = k1) = false := by simp [hx1]
        simp only [List.find?_cons, hd]
        exact ih
    · rename_i hk
      have hxk : x.1 = k := by simpa using hk
      have hx1 : ¬ x.1 = k1 := fun e => h (e.symm.trans hxk)
      have hd : decide (x.1 = k1) = false := by simp [hx1]
      simp only [List.find?_cons, hd]
      exact ih

/-- Reading a key right after it was written returns the written value. -/
theorem GetState_put_self (t : List (String × List ColumnDefinition))
    (l : List (String × String)) (k v : String) :
    GetState ⟨t, (k, v) :: l⟩ k = some v := by
  simp [GetState]

/-- Reading another key skips a freshly written entry. -/
theorem GetState_put_other (t : List (String × List ColumnDefinition))
    (l : List (String × String)) (k k1 v : String) (h : k1 ≠ k) :
    GetState ⟨t, (k, v) :: l⟩ k1 = GetState ⟨t, l⟩ k1 := by
  have hd : decide (k = k1) = false := by
    simp only [decide_eq_false_iff_not]
    exact fun e => h e.symm
  simp only [GetState, List.find?_cons, hd]

/-- Reading a key right after it was deleted finds nothing. -/
theorem GetState_del_self (t : List (String × List ColumnDefinition))
    (l : List (String × String)) (k : String) :
    GetState ⟨t, l.filter (fun kv => kv.1 ≠ k)⟩ k = none := by
  simp only [GetState]
  rw [find_filter_ne_self]

/-- Reading another key is unaffected by a delete. -/
theorem GetState_del_other (t : List (String × List ColumnDefinition))
    (l : List (String × String)) (k k1 : String) (h : k1 ≠ k) :
    GetState ⟨t, l.filter (fun kv => kv.1 ≠ k)⟩ k1 = GetState ⟨t, l⟩ k1 := by
  simp only [GetState]
  rw [find_filter_ne_other l k k1 h]

/-- What `policycreate` does on a four-argument list. -/
theorem policycreate_four (s : Ledger) (p u n a : String) :
    policycreate s [p, u, n, a] =
      (⟨s.tables, (p, policyRow p u n a) :: s.state.filter (fun kv => kv.1 ≠ p)⟩,
        Res.ok none) := by
  simp [policycreate, PutState]

/-- What `resourcecreate` does on a three-argument list. -/
theorem resourcecreate_three (s : Ledger) (r ip url : String) :
    resourcecreate s [r, ip, url] =
      (⟨s.tables, (r, resourceRow r ip url) :: s.state.filter (fun kv => kv.1 ≠ r)⟩,
        Res.ok none) := by
  simp [resourcecreate, PutState]

/-- What `policydelete` does on a one-argument list. -/
theorem policydelete_one (s : Ledger) (p : String) :
    policydelete s [p] =
      (⟨s.tables, s.state.filter (fun kv => kv.1 ≠ p)⟩, Res.ok none) := by
  simp [policydelete, DelState]

/-- What `policymodify` does on a five-argument list. -/
theorem policymodify_five (s : Ledger) (new old url user auth : String) :
    policymodify s [new, old, url, user, auth] =
      (⟨s.tables, (new, policyRow new url user auth) ::
          (s.state.filter (fun kv => kv.1 ≠ old)).filter (fun kv => kv.1 ≠ new)⟩,
        Res.ok none) := by
  simp [policymodify, DelState, PutState]

/-- The reader accepts a policy row whose four values are all quoted. -/
theorem decodePolicy_quoted_row :
    decodePolicy ("\x7b\"PolicyName\": \"pol1\", \"ResourceURL\": \"/api\", " ++
        "\"UserName\": \"alice\", \"IsAuthorized\": \"true\"\x7d") =
      some ⟨"pol1", "/api", "alice", "true"⟩ := by
  decide

/-! ## The claims -/

/-- C1: reading back the row `policycreate` stored under `p` should give a
policy record with fields `p`, `u`, `n`, `a`.  At `["pol1", "/api", "alice",
"true"]` the call succeeds, but the stored row carries the user name without
quotes, so it is not a flat JSON object and no policy record is read back. -/
theorem policycreate_row_not_a_record :
    (policycreate Ledger.fresh ["pol1", "/api", "alice", "true"]).2 = Res.ok none ∧
    GetState (policycreate Ledger.fresh ["pol1", "/api", "alice", "true"]).1 "pol1" =
      some ("\x7b\"PolicyName\": \"pol1\", \"ResourceURL\": \"/api\", " ++
        "\"UserName\": alice, \"IsAuthorized\": \"true\"\x7d") ∧
    getPolicy (policycreate Ledger.fresh ["pol1", "/api", "alice", "true"]).1 "pol1" =
      none := by
  decide

/-- C2, as stated, fails when the new and the old name coincide: after
`policymodify ["pol1", "pol1", "/api", "alice", "true"]` succeeds, a lookup
of the old key `pol1` still finds a row. -/
theorem policymodify_same_name_old_key_found :
    (policymodify Ledger.fresh ["pol1", "pol1", "/api", "alice", "true"]).2 =
      Res.ok none ∧
    GetState (policymodify Ledger.fresh ["pol1", "pol1", "/api", "alice", "true"]).1
      "pol1" ≠ none := by
  decide

/-- C2, amended: for every ledger state and every five-argument list
`[new, old, url, user, auth]`, `policymodify` succeeds; afterwards a lookup of
key `new` returns the row the call built from `new`, `url`, `user` and `auth`,
and a lookup of key `old` finds no row provided `old` differs from `new`. -/
theorem policymodify_lookup (s : Ledger) (new old url user auth : String) :
    (policymodify s [new, old, url, user, auth]).2 = Res.ok none ∧
    GetState (policymodify s [new, old, url, user, auth]).1 new =
      some (policyRow new url user auth) ∧
    (old ≠ new → GetState (policymodify s [new, old, url, user, auth]).1 old = none) := by
  rw [policymodify_five]
  refine ⟨rfl, GetState_put_self _ _ _ _, fun hne => ?_⟩
  show GetState ⟨s.tables, _ :: _⟩ old = none
  rw [GetState_put_other _ _ _ _ _ hne, GetState_del_other _ _ _ _ hne]
  exact GetState_del_self _ _ _

/-- C2, amended, at a rename of `pol1` to `pol2` on a ledger holding `pol1`. -/
theorem policymodify_lookup_witness :
    (policymodify ⟨[], [("pol1", "row")]⟩ ["pol2", "pol1", "/api", "alice", "true"]).2 =
      Res.ok none ∧
    GetState (policymodify ⟨[], [("pol1", "row")]⟩
      ["pol2", "pol1", "/api", "alice", "true"]).1 "pol2" =
      some (policyRow "pol2" "/api" "alice" "true") ∧
    GetState (policymodify ⟨[], [("pol1", "row")]⟩
      ["pol2", "pol1", "/api", "alice", "true"]).1 "pol1" = none :=
  have h := policymodify_lookup ⟨[], [("pol1", "row")]⟩ "pol2" "pol1" "/api" "alice" "true"
  ⟨h.1, h.2.1, h.2.2 (by decide)⟩

/-- C3: for every ledger state and every policy name `p`, `policydelete [p]`
succeeds whether or not a row is stored under `p`, leaves no row under `p`,
and a second `policydelete [p]` right after also succeeds and leaves the
state equal to the state after the first call. -/
theorem policydelete_idempotent (s : Ledger) (p : String) :
    (policydelete s [p]).2 = Res.ok none ∧
    GetState (policydelete s [p]).1 p = none ∧
    (policydelete (policydelete s [p]).1 [p]).2 = Res.ok none ∧
    (policydelete (policydelete s [p]).1 [p]).1 = (policydelete s [p]).1 := by
  rw [policydelete_one, policydelete_one]
  refine ⟨rfl, GetState_del_self _ _ _, rfl, ?_⟩
  show Ledger.mk s.tables _ = Ledger.mk s.tables _
  congr 1
  rw [List.filter_filter]
  congr 1
  funext kv
  simp

/-- C4, as stated, fails: on the ledger where `srv1` is registered,
`resourcecreate ["srv1", "10.0.0.2", "/v2"]` returns success, not an error,
and the row stored under `srv1` is no longer the one stored before. -/
theorem resourcecreate_duplicate_overwrites :
    GetState (resourcecreate Ledger.fresh ["srv1", "10.0.0.1", "/api"]).1 "srv1" ≠ none ∧
    (resourcecreate (resourcecreate Ledger.fresh ["srv1", "10.0.0.1", "/api"]).1
      ["srv1", "10.0.0.2", "/v2"]).2 = Res.ok none ∧
    GetState (resourcecreate (resourcecreate Ledger.fresh ["srv1", "10.0.0.1", "/api"]).1
      ["srv1", "10.0.0.2", "/v2"]).1 "srv1" ≠
      GetState (resourcecreate Ledger.fresh ["srv1", "10.0.0.1", "/api"]).1 "srv1" := by
  decide

/-- C4, amended: for every ledger state, whether or not a resource is
registered under `r`, and every `ip` and `url`, `resourcecreate [r, ip, url]`
succeeds, and afterwards the row stored under `r` is the row built from `r`,
`ip` and `url`; an earlier row under `r` is overwritten. -/
theorem resourcecreate_overwrites (s : Ledger) (r ip url : String) :
    (resourcecreate s [r, ip, url]).2 = Res.ok none ∧
    GetState (resourcecreate s [r, ip, url]).1 r = some (resourceRow r ip url) := by
  rw [resourcecreate_three]
  exact ⟨rfl, GetState_put_self _ _ _ _⟩

/-- C5, as stated, fails: on the ledger where policy `pol1` is live,
`policycreate ["pol1", "/v2", "bob", "false"]` returns success, not an error,
and the row stored under `pol1` is no longer the one stored before. -/
theorem policycreate_duplicate_overwrites :
    GetState (policycreate Ledger.fresh ["pol1", "/api", "alice", "true"]).1 "pol1" ≠ none ∧
    (policycreate (policycreate Ledger.fresh ["pol1", "/api", "alice", "true"]).1
      ["pol1", "/v2", "bob", "false"]).2 = Res.ok none ∧
    GetState (policycreate (policycreate Ledger.fresh ["pol1", "/api", "alice", "true"]).1
      ["pol1", "/v2", "bob", "false"]).1 "pol1" ≠
      GetState (policycreate Ledger.fresh ["pol1", "/api", "alice", "true"]).1 "pol1" := by
  decide

/-- C5, amended: for every ledger state, whether or not a policy named `p`
is live, and every `u`, `n`, `a`, `policycreate [p, u, n, a]` succeeds, and
afterwards the row stored under `p` is the row built from `p`, `u`, `n` and
`a`; an earlier row under `p` is overwritten. -/
theorem policycreate_overwrites (s : Ledger) (p u n a : String) :
    (policycreate s [p, u, n, a]).2 = Res.ok none ∧
    GetState (policycreate s [p, u, n, a]).1 p = some (policyRow p u n a) := by
  rw [policycreate_four]
  exact ⟨rfl, GetState_put_self _ _ _ _⟩

/-- C6: for every route of `Invoke` and every argument list whose length
differs from the arity of the route (policycreate 4, policydelete 1,
policymodify 5, resourcecreate 3, fetchlogs 2), `Invoke` returns the
incorrect-number-of-arguments error and leaves the ledger unchanged. -/
theorem Invoke_arity_mismatch (s : Ledger) (function : String) (n : Nat)
    (args : List String) (hr : routeArity function = some n) (hl : args.length ≠ n) :
    (Invoke s function args).1 = s ∧
    ∃ k, (Invoke s function args).2 = Res.err (Err.incorrectNumberOfArguments k) := by
  unfold routeArity at hr
  split_ifs at hr with h1 h2 h3 h4 h5
  · cases hr; subst h1
    exact ⟨by simp [Invoke, policycreate, hl], 1, by simp [Invoke, policycreate, hl]⟩
  · cases hr; subst h2
    exact ⟨by simp [Invoke, policydelete, hl], 1, by simp [Invoke, policydelete, hl]⟩
  · cases hr; subst h3
    exact ⟨by simp [Invoke, policymodify, hl], 1, by simp [Invoke, policymodify, hl]⟩
  · cases hr; subst h4
    exact ⟨by simp [Invoke, resourcecreate, hl], 3, by simp [Invoke, resourcecreate, hl]⟩
  · cases hr; subst h5
    exact ⟨by simp [Invoke, fetchlogs, hl], 2, by simp [Invoke, fetchlogs, hl]⟩

/-- C6 at `Invoke "policycreate" ["only", "two"]`: the call fails with the
incorrect-number-of-arguments error and the ledger is unchanged. -/
theorem Invoke_arity_mismatch_witness :
    (Invoke Ledger.fresh "policycreate" ["only", "two"]).1 = Ledger.fresh ∧
    ∃ k, (Invoke Ledger.fresh "policycreate" ["only", "two"]).2 =
      Res.err (Err.incorrectNumberOfArguments k) :=
  Invoke_arity_mismatch Ledger.fresh "policycreate" 4 ["only", "two"] (by decide) (by decide)

/-- C7, as stated, fails at the name `Init`, which is none of the five
operations: `Invoke "Init"` is routed to `Init`, so with one argument it
returns the incorrect-number-of-arguments error, and with none on a fresh
ledger it changes the ledger; neither call gives the unknown-function error. -/
theorem Invoke_Init_is_routed :
    "Init" ∉ operationNames ∧
    Invoke Ledger.fresh "Init" ["x"] =
      (Ledger.fresh, Res.err (Err.incorrectNumberOfArguments 0)) ∧
    (Invoke Ledger.fresh "Init" []).2 ≠ Res.err Err.unknownFunction ∧
    (Invoke Ledger.fresh "Init" []).1 ≠ Ledger.fresh := by
  decide

/-- C7, amended: `Invoke` routes by exact name match to `Init` and to the five
operations resourcecreate, policycreate, policydelete, policymodify and
fetchlogs; for every name that is none of these six and every argument list
it fails with the unknown-function error and leaves the ledger unchanged. -/
theorem Invoke_routes (s : Ledger) (function : String) (args : List String) :
    Invoke s "Init" args = Init s "init" args ∧
    Invoke s "resourcecreate" args = resourcecreate s args ∧
    Invoke s "policycreate" args = policycreate s args ∧
    Invoke s "policydelete" args = policydelete s args ∧
    Invoke s "policymodify" args = policymodify s args ∧
    Invoke s "fetchlogs" args = fetchlogs s args ∧
    (function ∉ operationNames → function ≠ "Init" →
      Invoke s function args = (s, Res.err Err.unknownFunction)) := by
  refine ⟨by simp [Invoke], by simp [Invoke], by simp [Invoke], by simp [Invoke],
    by simp [Invoke], by simp [Invoke], fun hn hi => ?_⟩
  simp only [operationNames, List.mem_cons, List.mem_singleton, List.not_mem_nil,
    or_false, not_or] at hn
  obtain ⟨h1, h2, h3, h4, h5⟩ := hn
  simp [Invoke, hi, h1, h2, h3, h4, h5]

/-- C7, amended, at `Invoke "bogus" []`. -/
theorem Invoke_routes_witness :
    Invoke Ledger.fresh "bogus" [] = (Ledger.fresh, Res.err Err.unknownFunction) :=
  (Invoke_routes Ledger.fresh "bogus" []).2.2.2.2.2.2 (by decide) (by decide)

/-- C8: on a fresh ledger `Init` with zero arguments should succeed and leave
both tables declared.  Under the `CreateTable` contract the call instead
returns the AccessLog table-creation error caused by `InvalidSchema`, since
no column of `AccessLogTable` is marked as key, and only `IAManagerTable` is
declared afterwards. -/
theorem Init_fresh_fails_on_AccessLogTable :
    accessLogColumns.any (fun c => c.Key) = false ∧
    Init Ledger.fresh "init" [] =
      (⟨[("IAManagerTable", iaManagerColumns)], []⟩,
        Res.err (Err.failedCreatingTable "AccessLog" StubError.InvalidSchema)) ∧
    tableExists (Init Ledger.fresh "init" []).1 "IAManagerTable" = true ∧
    tableExists (Init Ledger.fresh "init" []).1 "AccessLogTable" = false := by
  decide

/-- C9: for every ledger state in which `IAManagerTable` already exists, a
call of `Init` with zero arguments, made directly or through `Invoke` with
operation name `Init`, fails with the IAManager table-creation error (cause
`SchemaExists`) and leaves the ledger state, tables and rows, unchanged. -/
theorem Init_again_fails (s : Ledger) (function : String)
    (h : tableExists s "IAManagerTable" = true) :
    Init s function [] =
      (s, Res.err (Err.failedCreatingTable "IAManager" StubError.SchemaExists)) ∧
    Invoke s "Init" [] =
      (s, Res.err (Err.failedCreatingTable "IAManager" StubError.SchemaExists)) := by
  have hi : ∀ f, Init s f [] =
      (s, Res.err (Err.failedCreatingTable "IAManager" StubError.SchemaExists)) := by
    intro f
    simp [Init, CreateTable, h]
  exact ⟨hi function, by simpa [Invoke] using hi "init"⟩

/-- C9 on a ledger that holds `IAManagerTable` and one stored row. -/
theorem Init_again_fails_witness :
    Init ⟨[("IAManagerTable", iaManagerColumns)], [("pol1", "row")]⟩ "init" [] =
      (⟨[("IAManagerTable", iaManagerColumns)], [("pol1", "row")]⟩,
        Res.err (Err.failedCreatingTable "IAManager" StubError.SchemaExists)) ∧
    Invoke ⟨[("IAManagerTable", iaManagerColumns)], [("pol1", "row")]⟩ "Init" [] =
      (⟨[("IAManagerTable", iaManagerColumns)], [("pol1", "row")]⟩,
        Res.err (Err.failedCreatingTable "IAManager" StubError.SchemaExists)) :=
  Init_again_fails ⟨[("IAManagerTable", iaManagerColumns)], [("pol1", "row")]⟩ "init"
    (by decide)

/-- C10: `fetchlogs [from, to]` should fail with an invalid-range error when
`from > to` and return the log entries of the range otherwise.  On a ledger
holding one row, both `fetchlogs ["0", "10"]` and `fetchlogs ["5", "1"]` stop
with an index-out-of-range fault on `args[2]`: no entries are returned and no
range error is reported. -/
theorem fetchlogs_two_arguments_fault :
    fetchlogs ⟨[], [("srv1", "row")]⟩ ["0", "10"] =
      (⟨[], [("srv1", "row")]⟩, Res.fault (Fault.indexOutOfRange 2 2)) ∧
    fetchlogs ⟨[], [("srv1", "row")]⟩ ["5", "1"] =
      (⟨[], [("srv1", "row")]⟩, Res.fault (Fault.indexOutOfRange 2 2)) := by
  decide

/-! ## Error returns and the ledger state -/

/-- An error return of `policycreate` leaves the ledger as it was. -/
theorem policycreate_err_state (s : Ledger) (args : List String) (e : Err)
    (h : (policycreate s args).2 = Res.err e) : (policycreate s args).1 = s := by
  rcases args with _ | ⟨a, _ | ⟨b, _ | ⟨c, _ | ⟨d, _ | ⟨x, t⟩⟩⟩⟩⟩ <;>
    simp [policycreate, PutState] at h ⊢

/-- An error return of `policydelete` leaves the ledger as it was. -/
theorem policydelete_err_state (s : Ledger) (args : List String) (e : Err)
    (h : (policydelete s args).2 = Res.err e) : (policydelete s args).1 = s := by
  rcases args with _ | ⟨a, _ | ⟨b, t⟩⟩ <;> simp [policydelete, DelState] at h ⊢

/-- An error return of `policymodify` leaves the ledger as it was. -/
theorem policymodify_err_state (s : Ledger) (args : List String) (e : Err)
    (h : (policymodify s args).2 = Res.err e) : (policymodify s args).1 = s := by
  rcases args with _ | ⟨a, _ | ⟨b, _ | ⟨c, _ | ⟨d, _ | ⟨x, _ | ⟨y, t⟩⟩⟩⟩⟩⟩ <;>
    simp [policymodify, DelState, PutState] at h ⊢

/-- An error return of `resourcecreate` leaves the ledger as it was. -/
theorem resourcecreate_err_state (s : Ledger) (args : List String) (e : Err)
    (h : (resourcecreate s args).2 = Res.err e) : (resourcecreate s args).1 = s := by
  rcases args with _ | ⟨a, _ | ⟨b, _ | ⟨c, _ | ⟨d, t⟩⟩⟩⟩ <;>
    simp [resourcecreate, PutState] at h ⊢

/-- Whatever its arguments, `fetchlogs` leaves the ledger as it was. -/
theorem fetchlogs_state (s : Ledger) (args : List String) : (fetchlogs s args).1 = s := by
  rcases args with _ | ⟨a, _ | ⟨b, _ | ⟨c, t⟩⟩⟩ <;> simp [fetchlogs]

/-- A successful `CreateTable` appends the schema and keeps the rows. -/
theorem CreateTable_ok (s s1 : Ledger) (name : String) (columns : List ColumnDefinition)
    (h : CreateTable s name columns = .ok s1) :
    s1 = ⟨s.tables ++ [(name, columns)], s.state⟩ := by
  unfold CreateTable at h
  split_ifs at h
  cases h
  rfl

/-- C11, as stated, fails for `Init`: on the fresh ledger, and on a ledger
where only `AccessLogTable` is declared, `Init` declares `IAManagerTable`,
then fails on `AccessLogTable` and returns an error, and the ledger it leaves
differs from the ledger before the call. -/
theorem Init_error_keeps_first_table :
    (∃ e, (Init Ledger.fresh "init" []).2 = Res.err e) ∧
    (Init Ledger.fresh "init" []).1 ≠ Ledger.fresh ∧
    (∃ e, (Invoke ⟨[("AccessLogTable", accessLogColumns)], []⟩ "Init" []).2 = Res.err e) ∧
    (Invoke ⟨[("AccessLogTable", accessLogColumns)], []⟩ "Init" []).1 ≠
      ⟨[("AccessLogTable", accessLogColumns)], []⟩ := by
  refine ⟨⟨_, rfl⟩, by decide, ⟨_, rfl⟩, by decide⟩

/-- C11, amended: with a store that reports no fault, an error return of
`Invoke` under any operation name other than `Init` leaves the ledger equal
to the ledger before the call; so does an error return of `Init` other than
the AccessLog table-creation error.  `Init` never changes the stored rows,
and when it returns the AccessLog table-creation error the `IAManagerTable`
it declared stays declared. -/
theorem error_return_state (s : Ledger) (function : String) (args : List String)
    (e : Err) :
    (function ≠ "Init" → (Invoke s function args).2 = Res.err e →
      (Invoke s function args).1 = s) ∧
    ((Init s function args).2 = Res.err e →
      (∀ c, e ≠ Err.failedCreatingTable "AccessLog" c) → (Init s function args).1 = s) ∧
    (Init s function args).1.state = s.state ∧
    (∀ c, (Init s function args).2 = Res.err (Err.failedCreatingTable "AccessLog" c) →
      (Init s function args).1 =
        ⟨s.tables ++ [("IAManagerTable", iaManagerColumns)], s.state⟩) := by
  refine ⟨fun hi h => ?_, ?_, ?_, ?_⟩
  · unfold Invoke at h ⊢
    simp only [hi, if_false] at h ⊢
    split_ifs at h ⊢
    · exact resourcecreate_err_state s args e h
    · exact policycreate_err_state s args e h
    · exact policydelete_err_state s args e h
    · exact policymodify_err_state s args e h
    · exact fetchlogs_state s args
    · rfl
  · intro h hne
    by_cases hl : args.length ≠ 0
    · simp [Init, hl]
    · cases h1 : CreateTable s "IAManagerTable" iaManagerColumns with
      | error err => simp [Init, hl, h1]
      | ok s1 =>
        cases h2 : CreateTable s1 "AccessLogTable" accessLogColumns with
        | error errLog =>
          simp [Init, hl, h1, h2] at h
          exact absurd h.symm (hne errLog)
        | ok s2 => simp [Init, hl, h1, h2] at h
  · by_cases hl : args.length ≠ 0
    · simp [Init, hl]
    · cases h1 : CreateTable s "IAManagerTable" iaManagerColumns with
      | error err => simp [Init, hl, h1]
      | ok s1 =>
        have e1 := CreateTable_ok _ _ _ _ h1
        cases h2 : CreateTable s1 "AccessLogTable" accessLogColumns with
        | error errLog =>
          simp only [Init, hl, h1, h2, if_false]
          rw [e1]
        | ok s2 =>
          have e2 := CreateTable_ok _ _ _ _ h2
          simp only [Init, hl, h1, h2, if_false]
          rw [e2, e1]
  · intro c h
    by_cases hl : args.length ≠ 0
    · simp [Init, hl] at h
    · cases h1 : CreateTable s "IAManagerTable" iaManagerColumns with
      | error err => simp [Init, hl, h1] at h
      | ok s1 =>
        have e1 := CreateTable_ok _ _ _ _ h1
        cases h2 : CreateTable s1 "AccessLogTable" accessLogColumns with
        | error errLog =>
          simp only [Init, hl, h1, h2, if_false]
          exact e1
        | ok s2 => simp [Init, hl, h1, h2] at h

/-- C11, amended, at `Invoke "policycreate" ["only", "two"]` on a ledger with
one row, at `Init` with one argument, and at `Init` on the fresh ledger. -/
theorem error_return_state_witness :
    (Invoke ⟨[], [("pol1", "row")]⟩ "policycreate" ["only", "two"]).1 =
      ⟨[], [("pol1", "row")]⟩ ∧
    (Init ⟨[], [("pol1", "row")]⟩ "init" ["x"]).1 = ⟨[], [("pol1", "row")]⟩ ∧
    (Init Ledger.fresh "init" []).1 =
      ⟨Ledger.fresh.tables ++ [("IAManagerTable", iaManagerColumns)], Ledger.fresh.state⟩ :=
  ⟨(error_return_state ⟨[], [("pol1", "row")]⟩ "policycreate" ["only", "two"]
      (Err.incorrectNumberOfArguments 1)).1 (by decide) (by decide),
    (error_return_state ⟨[], [("pol1", "row")]⟩ "init" ["x"]
      (Err.incorrectNumberOfArguments 0)).2.1 (by decide) (by intro c; exact Err.noConfusion),
    (error_return_state Ledger.fresh "init" []
      (Err.incorrectNumberOfArguments 0)).2.2.2 StubError.InvalidSchema (by decide)⟩

/-- C12, as stated, fails: on the ledger where `policycreate` stored a row
under `pol1`, `Query` for `pol1` returns success with no payload, not the
stored record; on the fresh ledger, where nothing is stored under `pol1`, it
returns the same success, not an error. -/
theorem Query_ignores_the_store :
    GetState (policycreate Ledger.fresh ["pol1", "/api", "alice", "true"]).1 "pol1" ≠ none ∧
    (Query (policycreate Ledger.fresh ["pol1", "/api", "alice", "true"]).1
      "policy" ["pol1"]).2 = Res.ok none ∧
    GetState Ledger.fresh "pol1" = none ∧
    (Query Ledger.fresh "policy" ["pol1"]).2 = Res.ok none := by
  decide

/-- C12, amended: for every ledger state, operation name and argument list,
`Query` returns success with an empty payload and leaves the ledger
unchanged; it performs no lookup, whether or not a row is stored. -/
theorem Query_returns_nothing (s : Ledger) (function : String) (args : List String) :
    Query s function args = (s, Res.ok none) := by
  rfl

/-- C13, as stated, fails: `policycreate` with an empty resource URL and
`resourcecreate` with an empty resource IP both return success and store a
row. -/
theorem create_accepts_empty_field :
    (policycreate Ledger.fresh ["pol1", "", "alice", "true"]).2 = Res.ok none ∧
    GetState (policycreate Ledger.fresh ["pol1", "", "alice", "true"]).1 "pol1" ≠ none ∧
    (resourcecreate Ledger.fresh ["srv1", "", "/api"]).2 = Res.ok none ∧
    GetState (resourcecreate Ledger.fresh ["srv1", "", "/api"]).1 "srv1" ≠ none := by
  decide

/-- C13, amended: the create operations check the number of arguments only.
For every ledger state, `policycreate` with four arguments of which at least
one is the empty string, and `resourcecreate` with three arguments of which
at least one is the empty string, succeed and store the row built from the
arguments under the first argument. -/
theorem create_with_empty_field (s : Ledger) (p u n a r ip url : String)
    (_hp : p = "" ∨ u = "" ∨ n = "" ∨ a = "") (_hr : r = "" ∨ ip = "" ∨ url = "") :
    (policycreate s [p, u, n, a]).2 = Res.ok none ∧
    GetState (policycreate s [p, u, n, a]).1 p = some (policyRow p u n a) ∧
    (resourcecreate s [r, ip, url]).2 = Res.ok none ∧
    GetState (resourcecreate s [r, ip, url]).1 r = some (resourceRow r ip url) := by
  rw [policycreate_four, resourcecreate_three]
  exact ⟨rfl, GetState_put_self _ _ _ _, rfl, GetState_put_self _ _ _ _⟩

/-- C13, amended, at an empty user name and an empty resource name. -/
theorem create_with_empty_field_witness :
    (policycreate Ledger.fresh ["pol1", "/api", "", "true"]).2 = Res.ok none ∧
    GetState (policycreate Ledger.fresh ["pol1", "/api", "", "true"]).1 "pol1" =
      some (policyRow "pol1" "/api" "" "true") ∧
    (resourcecreate Ledger.fresh ["", "10.0.0.1", "/api"]).2 = Res.ok none ∧
    GetState (resourcecreate Ledger.fresh ["", "10.0.0.1", "/api"]).1 "" =
      some (resourceRow "" "10.0.0.1" "/api") :=
  create_with_empty_field Ledger.fresh "pol1" "/api" "" "true" "" "10.0.0.1" "/api"
    (by decide) (by decide)

/-- C14: for arguments free of double quotes, backslashes and control
characters the stored value should be a well-formed flat JSON object.  The
rows stored by `policycreate ["pol1", "/api", "alice", "true"]`, by
`policymodify ["pol1", "old", "/api", "alice", "true"]` and by
`resourcecreate ["srv1", "10.0.0.1", "/api"]` are not: the user name has no
quotes and the resource URL lacks its opening quote, so none of the three rows
reads as a flat JSON object. -/
theorem stored_rows_not_flat_json :
    GetState (policycreate Ledger.fresh ["pol1", "/api", "alice", "true"]).1 "pol1" =
      some ("\x7b\"PolicyName\": \"pol1\", \"ResourceURL\": \"/api\", " ++
        "\"UserName\": alice, \"IsAuthorized\": \"true\"\x7d") ∧
    decodeFlatObject ("\x7b\"PolicyName\": \"pol1\", \"ResourceURL\": \"/api\", " ++
        "\"UserName\": alice, \"IsAuthorized\": \"true\"\x7d") = none ∧
    GetState (policymodify Ledger.fresh ["pol1", "old", "/api", "alice", "true"]).1 "pol1" =
      some ("\x7b\"PolicyName\": \"pol1\", \"ResourceURL\": \"/api\", " ++
        "\"UserName\": alice, \"IsAuthorized\": \"true\"\x7d") ∧
    GetState (resourcecreate Ledger.fresh ["srv1", "10.0.0.1", "/api"]).1 "srv1" =
      some ("\x7b\"ResourceName\": \"srv1\", \"ResourceIP\": \"10.0.0.1\", " ++
        "\"ResourceURL\": /api\"\x7d") ∧
    decodeFlatObject ("\x7b\"ResourceName\": \"srv1\", \"ResourceIP\": \"10.0.0.1\", " ++
        "\"ResourceURL\": /api\"\x7d") = none := by
  decide

/-- C15: when the old and the new name are the same name `p`,
`policymodify [p, p, u, n, a]` succeeds and leaves exactly the ledger that
`policycreate [p, u, n, a]` leaves: key `p` holds the row built from `p`, `u`,
`n`, `a`, and every other key holds what it held before. -/
theorem policymodify_same_name_in_place (s : Ledger) (p u n a : String) :
    (policymodify s [p, p, u, n, a]).2 = Res.ok none ∧
    policymodify s [p, p, u, n, a] = policycreate s [p, u, n, a] ∧
    GetState (policymodify s [p, p, u, n, a]).1 p = some (policyRow p u n a) ∧
    (∀ k, k ≠ p → GetState (policymodify s [p, p, u, n, a]).1 k = GetState s k) := by
  have hff : (s.state.filter (fun kv => kv.1 ≠ p)).filter (fun kv => kv.1 ≠ p) =
      s.state.filter (fun kv => kv.1 ≠ p) := by
    rw [List.filter_filter]
    congr 1
    funext kv
    simp
  rw [policymodify_five, policycreate_four, hff]
  refine ⟨rfl, rfl, GetState_put_self _ _ _ _, fun k hk => ?_⟩
  show GetState ⟨s.tables, _ :: _⟩ k = GetState s k
  rw [GetState_put_other _ _ _ _ _ hk, GetState_del_other _ _ _ _ hk]

/-- C15 on a ledger holding `pol1` and `srv1`: the in-place update of `pol1`
leaves the row of `srv1` as it was. -/
theorem policymodify_same_name_in_place_witness :
    GetState (policymodify ⟨[], [("pol1", "row"), ("srv1", "res")]⟩
      ["pol1", "pol1", "/api", "alice", "true"]).1 "srv1" =
      GetState ⟨[], [("pol1", "row"), ("srv1", "res")]⟩ "srv1" :=
  (policymodify_same_name_in_place ⟨[], [("pol1", "row"), ("srv1", "res")]⟩
    "pol1" "/api" "alice" "true").2.2.2 "srv1" (by decide)

/-- C16: `fetchlogs` never returns success.  For every argument list of length
other than 2 it returns the incorrect-number-of-arguments error, and for every
argument list of length exactly 2 it faults on the read of `args[2]`, an
index past the end of the list; in both cases the ledger is unchanged. -/
theorem fetchlogs_never_succeeds (s : Ledger) (args : List String) :
    (args.length ≠ 2 →
      fetchlogs s args = (s, Res.err (Err.incorrectNumberOfArguments 2))) ∧
    (args.length = 2 →
      fetchlogs s args = (s, Res.fault (Fault.indexOutOfRange 2 2))) ∧
    (∀ payload, (fetchlogs s args).2 ≠ Res.ok payload) ∧
    (fetchlogs s args).1 = s := by
  rcases args with _ | ⟨a, _ | ⟨b, _ | ⟨c, t⟩⟩⟩ <;> simp [fetchlogs]

/-- C16 at the one-argument list `["0"]` and the two-argument list
`["0", "10"]`. -/
theorem fetchlogs_never_succeeds_witness :
    fetchlogs Ledger.fresh ["0"] =
      (Ledger.fresh, Res.err (Err.incorrectNumberOfArguments 2)) ∧
    fetchlogs Ledger.fresh ["0", "10"] =
      (Ledger.fresh, Res.fault (Fault.indexOutOfRange 2 2)) :=
  ⟨(fetchlogs_never_succeeds Ledger.fresh ["0"]).1 (by decide),
    (fetchlogs_never_succeeds Ledger.fresh ["0", "10"]).2.1 (by decide)⟩

/-! ## Frame of the write operations -/

/-- Keys other than the first argument keep their value under `policycreate`. -/
theorem policycreate_frame (s : Ledger) (args : List String) (k : String)
    (h0 : args[0]? ≠ some k) :
    GetState (policycreate s args).1 k = GetState s k := by
  rcases args with _ | ⟨a, _ | ⟨b, _ | ⟨c, _ | ⟨d, _ | ⟨x, t⟩⟩⟩⟩⟩
  case cons.cons.cons.cons.nil =>
    have hk : k ≠ a := fun e => h0 (by simp [e])
    rw [policycreate_four]
    show GetState ⟨s.tables, _ :: _⟩ k = GetState s k
    rw [GetState_put_other _ _ _ _ _ hk, GetState_del_other _ _ _ _ hk]
  all_goals simp [policycreate]

/-- Keys other than the first argument keep their value under
`resourcecreate`. -/
theorem resourcecreate_frame (s : Ledger) (args : List String) (k : String)
    (h0 : args[0]? ≠ some k) :
    GetState (resourcecreate s args).1 k = GetState s k := by
  rcases args with _ | ⟨a, _ | ⟨b, _ | ⟨c, _ | ⟨d, t⟩⟩⟩⟩
  case cons.cons.cons.nil =>
    have hk : k ≠ a := fun e => h0 (by simp [e])
    rw [resourcecreate_three]
    show GetState ⟨s.tables, _ :: _⟩ k = GetState s k
    rw [GetState_put_other _ _ _ _ _ hk, GetState_del_other _ _ _ _ hk]
  all_goals simp [resourcecreate]

/-- Keys other than the first argument keep their value under `policydelete`. -/
theorem policydelete_frame (s : Ledger) (args : List String) (k : String)
    (h0 : args[0]? ≠ some k) :
    GetState (policydelete s args).1 k = GetState s k := by
  rcases args with _ | ⟨a, _ | ⟨b, t⟩⟩
  case cons.nil =>
    have hk : k ≠ a := fun e => h0 (by simp [e])
    rw [policydelete_one]
    show GetState ⟨s.tables, _⟩ k = GetState s k
    rw [GetState_del_other _ _ _ _ hk]
  all_goals simp [policydelete]

/-- Keys other than the first two arguments keep their value under
`policymodify`. -/
theorem policymodify_frame (s : Ledger) (args : List String) (k : String)
    (h0 : args[0]? ≠ some k) (h1 : args[1]? ≠ some k) :
    GetState (policymodify s args).1 k = GetState s k := by
  rcases args with _ | ⟨a, _ | ⟨b, _ | ⟨c, _ | ⟨d, _ | ⟨x, _ | ⟨y, t⟩⟩⟩⟩⟩⟩
  case cons.cons.cons.cons.cons.nil =>
    have hk : k ≠ a := fun e => h0 (by simp [e])
    have hb : k ≠ b := fun e => h1 (by simp [e])
    rw [policymodify_five]
    show GetState ⟨s.tables, _ :: _⟩ k = GetState s k
    rw [GetState_put_other _ _ _ _ _ hk, GetState_del_other _ _ _ _ hk,
      GetState_del_other _ _ _ _ hb]
  all_goals simp [policymodify]

/-- The five operations leave the declared tables as they were. -/
theorem operations_keep_tables (s : Ledger) (args : List String) :
    (policycreate s args).1.tables = s.tables ∧
    (resourcecreate s args).1.tables = s.tables ∧
    (policydelete s args).1.tables = s.tables ∧
    (policymodify s args).1.tables = s.tables ∧
    (fetchlogs s args).1.tables = s.tables := by
  refine ⟨?_, ?_, ?_, ?_, by rw [fetchlogs_state]⟩
  · rcases args with _ | ⟨a, _ | ⟨b, _ | ⟨c, _ | ⟨d, _ | ⟨x, t⟩⟩⟩⟩⟩ <;>
      simp [policycreate, PutState]
  · rcases args with _ | ⟨a, _ | ⟨b, _ | ⟨c, _ | ⟨d, t⟩⟩⟩⟩ <;>
      simp [resourcecreate, PutState]
  · rcases args with _ | ⟨a, _ | ⟨b, t⟩⟩ <;> simp [policydelete, DelState]
  · rcases args with _ | ⟨a, _ | ⟨b, _ | ⟨c, _ | ⟨d, _ | ⟨x, _ | ⟨y, t⟩⟩⟩⟩⟩⟩ <;>
      simp [policymodify, DelState, PutState]

/-- C17: for every ledger state and argument list, `policycreate`,
`resourcecreate` and `policydelete` change the key-value state at most at key
`args[0]`, and `policymodify` changes it at most at keys `args[0]` and
`args[1]`; every other key keeps its value, and no operation of `Invoke`
other than `Init` changes the set of tables. -/
theorem write_frame (s : Ledger) (args : List String) (k function : String) :
    (args[0]? ≠ some k → GetState (policycreate s args).1 k = GetState s k) ∧
    (args[0]? ≠ some k → GetState (resourcecreate s args).1 k = GetState s k) ∧
    (args[0]? ≠ some k → GetState (policydelete s args).1 k = GetState s k) ∧
    (args[0]? ≠ some k → args[1]? ≠ some k →
      GetState (policymodify s args).1 k = GetState s k) ∧
    (function ≠ "Init" → (Invoke s function args).1.tables = s.tables) := by
  refine ⟨policycreate_frame s args k, resourcecreate_frame s args k,
    policydelete_frame s args k, policymodify_frame s args k, fun hi => ?_⟩
  obtain ⟨h1, h2, h3, h4, h5⟩ := operations_keep_tables s args
  unfold Invoke
  simp only [hi, if_false]
  split_ifs
  · exact h2
  · exact h1
  · exact h3
  · exact h4
  · exact h5
  · rfl

/-- C17 on a ledger holding `pol1` and `srv1`: creating `pol2`, registering
`srv2`, deleting `pol1` and renaming `pol1` to `pol2` all leave the row of
`srv1` as it was, and `policycreate` through `Invoke` leaves the tables. -/
theorem write_frame_witness :
    GetState (policycreate ⟨[], [("pol1", "row"), ("srv1", "res")]⟩
      ["pol2", "/api", "alice", "true"]).1 "srv1" = some "res" ∧
    GetState (resourcecreate ⟨[], [("pol1", "row"), ("srv1", "res")]⟩
      ["srv2", "10.0.0.2", "/v2"]).1 "srv1" = some "res" ∧
    GetState (policydelete ⟨[], [("pol1", "row"), ("srv1", "res")]⟩ ["pol1"]).1 "srv1" =
      some "res" ∧
    GetState (policymodify ⟨[], [("pol1", "row"), ("srv1", "res")]⟩
      ["pol2", "pol1", "/api", "alice", "true"]).1 "srv1" = some "res" ∧
    (Invoke ⟨[], [("pol1", "row"), ("srv1", "res")]⟩ "policycreate"
      ["pol2", "/api", "alice", "true"]).1.tables = [] :=
  ⟨((write_frame ⟨[], [("pol1", "row"), ("srv1", "res")]⟩
      ["pol2", "/api", "alice", "true"] "srv1" "policycreate").1 (by decide)).trans
      (by decide),
    ((write_frame ⟨[], [("pol1", "row"), ("srv1", "res")]⟩
      ["srv2", "10.0.0.2", "/v2"] "srv1" "resourcecreate").2.1 (by decide)).trans
      (by decide),
    ((write_frame ⟨[], [("pol1", "row"), ("srv1", "res")]⟩
      ["pol1"] "srv1" "policydelete").2.2.1 (by decide)).trans (by decide),
    ((write_frame ⟨[], [("pol1", "row"), ("srv1", "res")]⟩
      ["pol2", "pol1", "/api", "alice", "true"] "srv1" "policymodify").2.2.2.1
      (by decide) (by decide)).trans (by decide),
    (write_frame ⟨[], [("pol1", "row"), ("srv1", "res")]⟩
      ["pol2", "/api", "alice", "true"] "srv1" "policycreate").2.2.2.2 (by decide)⟩

/-! ## The row strings -/

/-- The stored row of `policycreate` is the policy row of its arguments. -/
theorem policycreate_stored (s : Ledger) (p u n a : String) :
    GetState (policycreate s [p, u, n, a]).1 p = some (policyRow p u n a) := by
  rw [policycreate_four]
  exact GetState_put_self _ _ _ _

/-- The characters of a policy row, with the double quotes that end the
policy name, the resource URL, the user-name separator and the flag made
explicit. -/
theorem policyRow_data (p u n a : String) :
    (policyRow p u n a).data =
      ("\x7b\"PolicyName\": \"" : String).data ++ (p.data ++
        (dq :: (", \"ResourceURL\": \"" : String).data ++ (u.data ++
          (dq :: (", \"UserName\": " : String).data ++ (n.data ++ ([',', ' '] ++
            (dq :: ("IsAuthorized\": \"" : String).data ++
              (a.data ++ [dq, Char.ofNat 125])))))))) := by
  simp only [policyRow, String.data_append, List.append_assoc]
  rfl

/-- A resource row and a policy row differ in their third character. -/
theorem resourceRow_ne_policyRow (r ip url p u n a : String) :
    resourceRow r ip url ≠ policyRow p u n a := by
  intro h
  have hr : (resourceRow r ip url).data[2]? = some 'R' := by
    simp only [resourceRow, String.data_append, List.append_assoc]
    rfl
  have hp : (policyRow p u n a).data[2]? = some 'P' := by
    simp only [policyRow, String.data_append, List.append_assoc]
    rfl
  rw [h, hp] at hr
  exact absurd hr (by decide)

/-- Two lists that agree up to their first double quote: the quote-free
fronts are equal and so are the rests. -/
theorem append_quote_cancel : ∀ (xs ys r r1 : List Char), dq ∉ xs → dq ∉ ys →
    xs ++ dq :: r = ys ++ dq :: r1 → xs = ys ∧ r = r1
  | [], [], _, _, _, _, h => by
    simp only [List.nil_append, List.cons.injEq, true_and] at h
    exact ⟨rfl, h⟩
  | [], y :: ys, _, _, _, hy, h => by
    simp only [List.nil_append, List.cons_append, List.cons.injEq] at h
    exact absurd (h.1 ▸ List.mem_cons_self _ _) hy
  | x :: xs, [], _, _, hx, _, h => by
    simp only [List.nil_append, List.cons_append, List.cons.injEq] at h
    exact absurd (h.1 ▸ List.mem_cons_self _ _) hx
  | x :: xs, y :: ys, r, r1, hx, hy, h => by
    simp only [List.cons_append, List.cons.injEq] at h
    obtain ⟨e1, e2⟩ := append_quote_cancel xs ys r r1
      (fun m => hx (List.mem_cons_of_mem _ m)) (fun m => hy (List.mem_cons_of_mem _ m)) h.2
    exact ⟨by rw [h.1, e1], e2⟩

/-- A quote-free string has no double quote among its characters. -/
theorem not_mem_of_quoteFree (s : String) (h : quoteFree s = true) : dq ∉ s.data := by
  intro m
  have := List.all_eq_true.mp h dq m
  simp at this

/-- Policy rows of quote-free arguments determine the arguments. -/
theorem policyRow_injective (p u n a p1 u1 n1 a1 : String)
    (hp : quoteFree p = true) (hu : quoteFree u = true) (hn : quoteFree n = true)
    (ha : quoteFree a = true) (hp1 : quoteFree p1 = true) (hu1 : quoteFree u1 = true)
    (hn1 : quoteFree n1 = true) (ha1 : quoteFree a1 = true)
    (h : policyRow p u n a = policyRow p1 u1 n1 a1) :
    p = p1 ∧ u = u1 ∧ n = n1 ∧ a = a1 := by
  have hd := congrArg String.data h
  rw [policyRow_data, policyRow_data] at hd
  have h1 := List.append_cancel_left hd
  obtain ⟨ep, h2⟩ := append_quote_cancel _ _ _ _
    (not_mem_of_quoteFree p hp) (not_mem_of_quoteFree p1 hp1) h1
  have h3 := List.append_cancel_left h2
  obtain ⟨eu, h4⟩ := append_quote_cancel _ _ _ _
    (not_mem_of_quoteFree u hu) (not_mem_of_quoteFree u1 hu1) h3
  have h5 := List.append_cancel_left h4
  have sep : dq ∉ ([',', ' '] : List Char) := by decide
  have hn2 : dq ∉ n.data ++ [',', ' '] := fun m =>
    (List.mem_append.mp m).elim (not_mem_of_quoteFree n hn) sep
  have hn3 : dq ∉ n1.data ++ [',', ' '] := fun m =>
    (List.mem_append.mp m).elim (not_mem_of_quoteFree n1 hn1) sep
  rw [← List.append_assoc n.data, ← List.append_assoc n1.data] at h5
  obtain ⟨en, h6⟩ := append_quote_cancel _ _ _ _ hn2 hn3 h5
  have en1 := List.append_cancel_right en
  have h7 := List.append_cancel_left h6
  obtain ⟨ea, _⟩ := append_quote_cancel _ _ _ _
    (not_mem_of_quoteFree a ha) (not_mem_of_quoteFree a1 ha1) h7
  exact ⟨String.ext ep, String.ext eu, String.ext en1, String.ext ea⟩

/-- C18: policies and resources share one key space.  For every ledger state
and name `k`, after `policycreate [k, u, n, a]` followed by
`resourcecreate [k, ip, url]` both calls have succeeded, the row under `k` is
the resource row, and the policy row is stored nowhere under `k`; after
`resourcecreate [k, ip, url]` followed by `policydelete [k]` no row is stored
under `k`. -/
theorem shared_key_space (s : Ledger) (k u n a ip url : String) :
    (policycreate s [k, u, n, a]).2 = Res.ok none ∧
    (resourcecreate (policycreate s [k, u, n, a]).1 [k, ip, url]).2 = Res.ok none ∧
    GetState (resourcecreate (policycreate s [k, u, n, a]).1 [k, ip, url]).1 k =
      some (resourceRow k ip url) ∧
    (k, policyRow k u n a) ∉
      (resourcecreate (policycreate s [k, u, n, a]).1 [k, ip, url]).1.state ∧
    (policydelete (resourcecreate s [k, ip, url]).1 [k]).2 = Res.ok none ∧
    GetState (policydelete (resourcecreate s [k, ip, url]).1 [k]).1 k = none := by
  rw [policycreate_four, resourcecreate_three, resourcecreate_three, policydelete_one]
  refine ⟨rfl, rfl, GetState_put_self _ _ _ _, ?_, rfl, GetState_del_self _ _ _⟩
  show (k, policyRow k u n a) ∉ (k, resourceRow k ip url) :: _
  intro m
  rcases List.mem_cons.mp m with e | m1
  · exact resourceRow_ne_policyRow k ip url k u n a (congrArg Prod.snd e).symm
  · have := (List.mem_filter.mp m1).2
    simp at this

/-- C19: the policy row built by `policycreate` is injective on quote-free
input: when no argument contains a double quote, equal stored rows come from
equal arguments `p`, `u`, `n`, `a`; and two distinct argument lists that do
contain a double quote store equal rows. -/
theorem policy_row_injective_on_quote_free (s s1 : Ledger)
    (p u n a p1 u1 n1 a1 : String) :
    (quoteFree p = true → quoteFree u = true → quoteFree n = true → quoteFree a = true →
      quoteFree p1 = true → quoteFree u1 = true → quoteFree n1 = true →
      quoteFree a1 = true →
      GetState (policycreate s [p, u, n, a]).1 p =
        GetState (policycreate s1 [p1, u1, n1, a1]).1 p1 →
      p = p1 ∧ u = u1 ∧ n = n1 ∧ a = a1) ∧
    (["pol1", "A\", \"UserName\": B", "C", "true"] ≠
        ["pol1", "A", "B\", \"UserName\": C", "true"] ∧
      GetState (policycreate s ["pol1", "A\", \"UserName\": B", "C", "true"]).1 "pol1" =
        GetState (policycreate s1 ["pol1", "A", "B\", \"UserName\": C", "true"]).1 "pol1") := by
  refine ⟨fun hp hu hn ha hp1 hu1 hn1 ha1 h => ?_, by decide, ?_⟩
  · rw [policycreate_stored, policycreate_stored] at h
    exact policyRow_injective p u n a p1 u1 n1 a1 hp hu hn ha hp1 hu1 hn1 ha1
      (Option.some.inj h)
  · rw [policycreate_stored, policycreate_stored]
    decide

/-- C19 at two quote-free argument lists that store the same row on two
different ledgers. -/
theorem policy_row_injective_on_quote_free_witness :
    quoteFree "pol1" = true ∧ quoteFree "/api" = true ∧ quoteFree "alice" = true ∧
    quoteFree "true" = true ∧
    GetState (policycreate Ledger.fresh ["pol1", "/api", "alice", "true"]).1 "pol1" =
      GetState (policycreate ⟨[], [("srv1", "res")]⟩
        ["pol1", "/api", "alice", "true"]).1 "pol1" ∧
    ("pol1" = "pol1" ∧ "/api" = "/api" ∧ "alice" = "alice" ∧ "true" = "true") :=
  ⟨by decide, by decide, by decide, by decide, by decide,
    (policy_row_injective_on_quote_free Ledger.fresh ⟨[], [("srv1", "res")]⟩
      "pol1" "/api" "alice" "true" "pol1" "/api" "alice" "true").1
      (by decide) (by decide) (by decide) (by decide) (by decide) (by decide) (by decide)
      (by decide) (by decide)⟩

end IdentityChainCode
